import Mathlib

/-!
Verification of the file-access resource of `clientutils/fileaccess.py`
(pyclientutils repository).

The Python module is shallowly embedded here.  Pure helpers become Lean
functions; the filesystem, the platform, the subprocess runner, the
mimetypes table and the local-time formatter are modelled as explicit
components of an `Env` record, so `handle_file_access` is a pure function
of the request and that environment.  Machine floats in `_format_size` are
modelled by exact rationals: the loop divides only by 1024, which is exact
binary floating-point scaling, so the unit choice agrees with CPython for
every natural size and the rendered digits agree on every exactly
representable value.  Python exceptions are modelled by the `PyError` sum
and `Except`; FastAPI responses by the `HResult` sum.  The handler also
returns the list of effects it performed (info extraction, rendering, byte
serving, external tool invocation) so that claims of the form "X happens
before Y is attempted" are statable.
-/

namespace PyClientUtils

/-! ### Generic string helpers (kernel-computable replacements for the
Python `str` and `pathlib` operations used by the module). -/

/-- Splits a character list on a separator, Python `str.split(sep)` style:
the result always has one more group than there are separators. -/
def splitOnChar (sep : Char) : List Char → List (List Char)
  | [] => [[]]
  | c :: cs =>
    match splitOnChar sep cs with
    | [] => [[]]
    | g :: gs => if c = sep then [] :: g :: gs else (c :: g) :: gs

/-- Last path component, as in `pathlib.PurePosixPath.name` for the
absolute, already-resolved paths this module works on. -/
def basename (p : String) : String :=
  String.mk ((splitOnChar '/' p.toList).getLastD [])

/-- Parent path, as in `pathlib.PurePosixPath.parent` for absolute,
already-resolved paths (the only inputs `open_file_in_desktop` receives
from the handler). -/
def parentOf (p : String) : String :=
  match (splitOnChar '/' p.toList).dropLast with
  | [] => "/"
  | [[]] => "/"
  | comps => String.mk (List.intercalate [ '/' ] comps)

/-- Index of the last dot in a character list, CPython `str.rfind(".")`. -/
def lastDotIdx : List Char → Option ℕ
  | [] => none
  | c :: cs =>
    match lastDotIdx cs with
    | some i => some (i + 1)
    | none => if c = '.' then some 0 else none

/-- Extension of a file name, as in `pathlib.PurePath.suffix`: the part of
the final component from its last dot on, provided that dot is neither the
first nor the last character; empty otherwise. -/
def pySuffix (nm : String) : String :=
  match lastDotIdx nm.toList with
  | some i =>
    if 0 < i ∧ i + 1 < nm.toList.length then String.mk (nm.toList.drop i) else ""
  | none => ""

/-- Python `str.lstrip(".")`: removes every leading dot. -/
def lstripDots (s : String) : String :=
  String.mk (s.toList.dropWhile (fun c => c = '.'))

/-- Python `str.lower()` restricted to ASCII, which is all this module
compares (extensions and icon names). -/
def toLowerStr (s : String) : String :=
  String.mk (s.toList.map Char.toLower)

/-- Python `str.rstrip("/")`: removes every trailing slash. -/
def rstripSlash (s : String) : String :=
  String.mk ((s.toList.reverse.dropWhile (fun c => c = '/')).reverse)

/-! ### Percent-encoding (`urllib.parse.urlencode` with its default
`quote_plus` quoting, as called by `get_action_link`). -/

/-- UTF-8 encoding of one Unicode scalar value as its list of bytes. -/
def utf8Bytes (n : ℕ) : List ℕ :=
  if n < 128 then [n]
  else if n < 2048 then [192 + n / 64, 128 + n % 64]
  else if n < 65536 then [224 + n / 4096, 128 + (n / 64) % 64, 128 + n % 64]
  else [240 + n / 262144, 128 + (n / 4096) % 64, 128 + (n / 64) % 64, 128 + n % 64]

/-- Upper-case hexadecimal digit for a value below 16. -/
def hexDigit (n : ℕ) : Char :=
  if n = 0 then '0' else if n = 1 then '1' else if n = 2 then '2'
  else if n = 3 then '3' else if n = 4 then '4' else if n = 5 then '5'
  else if n = 6 then '6' else if n = 7 then '7' else if n = 8 then '8'
  else if n = 9 then '9' else if n = 10 then 'A' else if n = 11 then 'B'
  else if n = 12 then 'C' else if n = 13 then 'D' else if n = 14 then 'E'
  else 'F'

/-- Percent escape of one byte, `%XX` with upper-case hex. -/
def pctByte (b : ℕ) : String :=
  String.mk [ '%', hexDigit (b / 16), hexDigit (b % 16)]

/-- Characters `urllib.parse.quote` never escapes: ASCII letters, digits,
underscore, dot, hyphen and tilde. -/
def alwaysSafe (c : Char) : Bool :=
  c.isAlpha || c.isDigit || c = '_' || c = '.' || c = '-' || c = '~'

/-- Python `urllib.parse.quote_plus` with empty `safe`, the quoting
`urlencode` applies to each key and value: a space becomes `+`, safe
characters pass through, every other character is UTF-8 percent-escaped. -/
def quote_plus (s : String) : String :=
  String.join (s.toList.map (fun c =>
    if alwaysSafe c then String.mk [c]
    else if c = ' ' then "+"
    else String.join ((utf8Bytes c.toNat).map pctByte)))

/-- Python `urllib.parse.urlencode` on an ordered list of key-value
pairs. -/
def urlencodePairs (ps : List (String × String)) : String :=
  String.intercalate "&" (ps.map (fun kv => quote_plus kv.1 ++ "=" ++ quote_plus kv.2))

/-! ### Size formatting (`FileAccessResource._format_size`). -/

/-- Rounding to the nearest integer with ties to even, the rule CPython
`format(x, ".2f")` applies at the second decimal (after scaling by 100). -/
def roundHalfEven (q : ℚ) : ℤ :=
  if q - (Int.floor q : ℚ) < 1 / 2 then Int.floor q
  else if 1 / 2 < q - (Int.floor q : ℚ) then Int.floor q + 1
  else if Int.floor q % 2 = 0 then Int.floor q else Int.floor q + 1

/-- Two-digit zero-padded rendering of a natural number below 100. -/
def pad2 (n : ℕ) : String :=
  if n < 10 then "0" ++ toString n else toString n

/-- Rendering of a nonnegative rational with exactly two decimal digits,
the model of the Python format specifier `.2f`. -/
def fmt2 (q : ℚ) : String :=
  toString ((roundHalfEven (q * 100)).toNat / 100) ++ "." ++
    pad2 ((roundHalfEven (q * 100)).toNat % 100)

/-- Unit names used by `_format_size`, in loop order with the terminal
petabyte fallback. -/
def sizeUnits : List String := ["B", "KB", "MB", "GB", "TB", "PB"]

/-- Loop body of `_format_size`: walk the unit list, stopping at the first
unit where the remaining value is below 1024, else divide by 1024; after
the last listed unit the value is rendered as petabytes unconditionally. -/
def _format_size_loop : ℚ → List String → String
  | size, [] => fmt2 size ++ " PB"
  | size, u :: us =>
    if size < 1024 then fmt2 size ++ " " ++ u
    else _format_size_loop (size / 1024) us

/-- Model of `FileAccessResource._format_size` on a natural byte count. -/
def _format_size (s : ℕ) : String :=
  _format_size_loop (s : ℚ) ["B", "KB", "MB", "GB", "TB"]

/-- Unit rank `_format_size` selects for a byte count: the number of
divisions by 1024 the loop performs, capped at 5 (petabytes). -/
def sizeRank (s : ℕ) : ℕ :=
  if s < 1024 then 0
  else if s < 1048576 then 1
  else if s < 1073741824 then 2
  else if s < 1099511627776 then 3
  else if s < 1125899906842624 then 4
  else 5

/-! ### Filesystem and environment model. -/

/-- Classification of a filesystem entry: `regular` answers `is_file()`,
`directory` answers `is_dir()`, and `special` stands for every other
existing entry (FIFOs, device nodes, sockets), for which both predicates
are false. -/
inductive EntryKind
  | regular
  | directory
  | special
deriving DecidableEq

/-- Fields of `os.stat` the module reads. -/
structure Stat where
  st_size : ℕ
  st_mtime : ℤ
deriving DecidableEq

/-- One filesystem entry: its kind, its stat record, and (meaningful for
regular files) its content as a byte list. -/
structure Entry where
  kind : EntryKind
  stat : Stat
  content : List ℕ
deriving DecidableEq

/-- Snapshot of the filesystem: `resolve` is `Path.resolve()`
(canonicalization: absolute, symlinks followed), and `lookup` maps a
resolved path to its entry, `none` when nothing exists there.  The module
only ever stats paths it has resolved, so `lookup` is keyed by resolved
paths. -/
structure FS where
  resolve : String → String
  lookup : String → Option Entry

/-- Python `Path.exists()` on an already-resolved path. -/
def fsExists (fs : FS) (p : String) : Bool :=
  (fs.lookup p).isSome

/-- Python `Path.is_dir()` on an already-resolved path. -/
def fsIsDir (fs : FS) (p : String) : Bool :=
  match fs.lookup p with
  | some e => e.kind = EntryKind.directory
  | none => false

/-- Python `Path.is_file()` on an already-resolved path. -/
def fsIsFile (fs : FS) (p : String) : Bool :=
  match fs.lookup p with
  | some e => e.kind = EntryKind.regular
  | none => false

/-- Bytes stored at a path, empty when the path has no regular file. -/
def contentOf (fs : FS) (p : String) : List ℕ :=
  match fs.lookup p with
  | some e => e.content
  | none => []

/-- Outcome of one `subprocess.run(cmd, check=True)` call: normal exit,
nonzero exit (Python raises `CalledProcessError`), or failure to launch
the executable at all (Python raises `FileNotFoundError`, an `OSError`). -/
inductive SubprocessOutcome
  | success
  | nonzeroExit (code : ℕ) (msg : String)
  | launchFailure (msg : String)
deriving DecidableEq

/-- Ambient state the module depends on besides the request: filesystem,
host OS name (`platform.system()`), subprocess behaviour, the mimetypes
table keyed by lower-cased extension (with dot), and local-time
formatting of a modification timestamp. -/
structure Env where
  fs : FS
  system : String
  run : List String → SubprocessOutcome
  mimeTypes : String → Option String
  formatTime : ℤ → String

/-- Model of `mimetypes.guess_type` as the module uses it: look the
lower-cased extension of the final path component up in the table. -/
def guess_type (types : String → Option String) (path : String) : Option String :=
  types (toLowerStr (pySuffix (basename path)))

/-- Python exceptions that cross function boundaries inside the module. -/
inductive PyError
  | fileNotFound (msg : String)
  | runtimeError (msg : String)
  | httpEx (status : ℕ) (detail : String)
deriving DecidableEq

/-! ### PathMapping.

Modelled from the spec: `clientutils/pathmapping.py` is not part of the
sources at hand (only its import is), so `translate` follows the spec,
section 4.1: the first configured logical prefix that matches is
substituted by its real counterpart, otherwise the input passes through
unchanged. -/

/-- Modelled from the spec: ordered table of logical-to-real path
substitutions (`clientutils/pathmapping.py`, absent from the sources). -/
structure PathMapping where
  pairs : List (String × String)

/-- Modelled from the spec: first matching configured logical prefix wins
and is replaced by the real one; unmapped inputs are returned unchanged. -/
def PathMapping.translate (pm : PathMapping) (path : String) : String :=
  match pm.pairs.find? (fun kv => kv.1.toList.isPrefixOf path.toList) with
  | some kv => kv.2 ++ String.mk (path.toList.drop kv.1.toList.length)
  | none => path

/-! ### FileAccessResource. -/

/-- State of a `FileAccessResource`: the normalized base URL and the
optional path mapping, both fixed at construction. -/
structure FileAccessResource where
  base_url : String
  path_mapping : Option PathMapping

/-- Constructor of `FileAccessResource` (`__init__`): the stored base URL
is the argument with trailing slashes stripped and exactly one appended. -/
def FileAccessResource.ofBase (base_url : String) (pm : Option PathMapping) :
    FileAccessResource :=
  { base_url := rstripSlash base_url ++ "/", path_mapping := pm }

/-- FileInfo record built by `get_file_info`. -/
structure FileInfo where
  name : String
  path : String
  size : ℕ
  size_formatted : String
  modified : String
  type : String
  extension : String
  is_file : Bool
  is_dir : Bool
deriving DecidableEq

/-- Model of `FileAccessResource.get_file_info`: resolve, fail with
`FileNotFoundError` when nothing exists there, else build the record from
the stat data. -/
def get_file_info (env : Env) (filepath : String) : Except PyError FileInfo :=
  match env.fs.lookup (env.fs.resolve filepath) with
  | none => Except.error (PyError.fileNotFound ("File not found: " ++ filepath))
  | some e =>
    Except.ok
      { name := basename (env.fs.resolve filepath)
        path := env.fs.resolve filepath
        size := e.stat.st_size
        size_formatted := _format_size e.stat.st_size
        modified := env.formatTime e.stat.st_mtime
        type := if e.kind = EntryKind.directory then "Directory" else "File"
        extension :=
          if e.kind = EntryKind.regular then
            toLowerStr (lstripDots (pySuffix (basename (env.fs.resolve filepath))))
          else ""
        is_file := e.kind = EntryKind.regular
        is_dir := e.kind = EntryKind.directory }

/-- Lower-cased, dot-stripped extension of the final component of a path,
the quantity `get_icon_name` and `get_file_info` derive icon and
extension fields from. -/
def pyExtOf (p : String) : String :=
  toLowerStr (lstripDots (pySuffix (basename p)))

/-- Model of `FileAccessResource.get_icon_name`: folder icon for
directories, extension icon for files with an extension, generic file
icon otherwise. -/
def get_icon_name (fs : FS) (file_path : String) : String :=
  if fsIsDir fs file_path then "folder32x32.png"
  else
    if pyExtOf file_path = "" then "file32x32.png"
    else pyExtOf file_path ++ "32x32.png"

/-- Model of `FileAccessResource.get_action_link`: base URL, the fixed
`file?` route, and the urlencoded filename and action parameters in
dictionary insertion order. -/
def get_action_link (res : FileAccessResource) (filename : String) (action : String) :
    String :=
  res.base_url ++ "file?" ++ urlencodePairs [("filename", filename), ("action", action)]

/-- Icon image tag of the default info template. -/
def icon_html (baseurl : String) (openiconName : String) : String :=
  "<img src=\"" ++ baseurl ++ "fileicon/" ++ openiconName ++
    "\" class=\"icon\" alt=\"icon\">"

/-- Model of `FileAccessResource._render_default_info` (the table and
actions fragment; the page chrome wraps it unless `noheader`). -/
def _render_default_info (fileinfo : FileInfo) (baseurl : String)
    (openiconName : String) (downloadlink : String) (browselink : String)
    (openlink : String) (noheader : Bool) : String :=
  let table_content :=
    "\n        <table class=\"info-table\">\n            <tr>\n                <td>Name:</td>\n                <td>" ++
    icon_html baseurl openiconName ++ fileinfo.name ++
    "</td>\n            </tr>\n            <tr>\n                <td>Path:</td>\n                <td>" ++
    fileinfo.path ++
    "</td>\n            </tr>\n            <tr>\n                <td>Size:</td>\n                <td>" ++
    fileinfo.size_formatted ++
    "</td>\n            </tr>\n            <tr>\n                <td>Modified:</td>\n                <td>" ++
    fileinfo.modified ++
    "</td>\n            </tr>\n            <tr>\n                <td>Type:</td>\n                <td>" ++
    fileinfo.type ++
    "</td>\n            </tr>\n        </table>\n\n        <div class=\"actions\">\n            <h3>Actions:</h3>\n            <a href=\"" ++
    downloadlink ++ "\" class=\"btn\">Download</a>\n            <a href=\"" ++
    browselink ++ "\" class=\"btn\">Browse Folder</a>\n            <a href=\"" ++
    openlink ++ "\" class=\"btn\">Open File</a>\n        </div>\n        "
  if noheader then table_content
  else
    "\n    <!DOCTYPE html>\n    <html>\n    <head>\n        <meta charset=\"UTF-8\">\n        <title>File Info: " ++
    fileinfo.name ++
    "</title>\n        <style>\n            body \x7b font-family: Arial, sans-serif; margin: 20px; \x7d\n            .container \x7b max-width: 800px; margin: 0 auto; \x7d\n            .header \x7b background: #f0f0f0; padding: 10px; border-radius: 5px; \x7d\n            .info-table \x7b width: 100%; border-collapse: collapse; margin-top: 20px; \x7d\n            .info-table td \x7b padding: 8px; border-bottom: 1px solid #ddd; \x7d\n            .info-table td:first-child \x7b font-weight: bold; width: 200px; \x7d\n            .actions \x7b margin-top: 20px; \x7d\n            .btn \x7b display: inline-block; padding: 10px 20px; margin: 5px;\n                   background: #007bff; color: white; text-decoration: none;\n                   border-radius: 3px; \x7d\n            .btn:hover \x7b background: #0056b3; \x7d\n            .icon \x7b width: 32px; height: 32px; vertical-align: middle; margin-right: 10px; \x7d\n        </style>\n    </head>\n    <body>\n    <div class=\"container\">\n        <div class=\"header\">\n            <h1>File Information</h1>\n        </div>\n        " ++
    table_content ++
    "\n    </div>\n    </body>\n    </html>\n    "

/-- Model of `FileAccessResource._render_short_info`. -/
def _render_short_info (fileinfo : FileInfo) (downloadlink : String)
    (browselink : String) (openlink : String) : String :=
  "\n    <div style=\"padding: 10px; border: 1px solid #ccc; border-radius: 5px; background: #f9f9f9;\">\n        <strong>" ++
  fileinfo.name ++ "</strong><br>\n        Size: " ++ fileinfo.size_formatted ++
  "<br>\n        <a href=\"" ++ downloadlink ++ "\">Download</a> |\n        <a href=\"" ++
  browselink ++ "\">Browse</a> |\n        <a href=\"" ++ openlink ++
  "\">Open</a>\n    </div>\n    "

/-- Auto-closing confirmation page returned by the open and browse
actions. -/
def CLOSE_TAB_HTML : String :=
  "\n<!DOCTYPE html>\n<html>\n<head>\n    <title>File Opened</title>\n</head>\n<body onload=\"window.close();\">\n    <p>File opened. This window will close automatically.</p>\n    <script>\n        setTimeout(function() \x7b\n            window.close();\n        \x7d, 1000);\n    </script>\n</body>\n</html>\n"

/-- Model of `FileAccessResource.render_info`: compute the icon and the
three action links, then pick the template by name (anything other than
`shortinfo` renders the default template). -/
def render_info (res : FileAccessResource) (fs : FS) (fileinfo : FileInfo)
    (template_name : String) (noheader : Bool) : String :=
  if template_name = "shortinfo" then
    _render_short_info fileinfo (get_action_link res fileinfo.path "download")
      (get_action_link res fileinfo.path "browse")
      (get_action_link res fileinfo.path "open")
  else
    _render_default_info fileinfo res.base_url (get_icon_name fs fileinfo.path)
      (get_action_link res fileinfo.path "download")
      (get_action_link res fileinfo.path "browse")
      (get_action_link res fileinfo.path "open") noheader

/-- Model of `FileAccessResource.open_file_in_desktop`.  Returns the
Python result together with the flag that the external command was
actually invoked.  A missing target raises `FileNotFoundError` before any
invocation; a nonzero exit (`CalledProcessError`) is re-raised as
`RuntimeError`; a launch failure propagates as the `FileNotFoundError`
the `subprocess` module raises for a missing executable. -/
def open_file_in_desktop (env : Env) (file_path : String) (open_parent : Bool) :
    Except PyError Bool × Bool :=
  let target := if open_parent then parentOf file_path else file_path
  if fsExists env.fs target then
    let cmd :=
      if env.system = "Darwin" then ["open", target]
      else if env.system = "Windows" then ["explorer", target]
      else ["xdg-open", target]
    match env.run cmd with
    | SubprocessOutcome.success => (Except.ok true, true)
    | SubprocessOutcome.nonzeroExit _ m =>
      (Except.error (PyError.runtimeError ("Failed to open file: " ++ m)), true)
    | SubprocessOutcome.launchFailure m =>
      (Except.error (PyError.fileNotFound m), true)
  else
    (Except.error (PyError.fileNotFound ("Path not found: " ++ target)), false)

/-- FastAPI responses the handler can produce: an error response raised
through `HTTPException`, an HTML response, or a streaming file response
carrying the served path, media type, download file name, the
Content-Disposition header value, and the bytes the stream yields. -/
inductive HResult
  | httpError (status : ℕ) (detail : String)
  | htmlResponse (content : String)
  | fileResponse (path : String) (media_type : String) (fileName : String)
      (content_disposition : String) (body : List ℕ)
deriving DecidableEq

/-- HTTP status of a handler result (non-error responses are 200). -/
def statusOf : HResult → ℕ
  | HResult.httpError s _ => s
  | _ => 200

/-- Bytes a response streams to the client, when it is a file response. -/
def servedBody : HResult → Option (List ℕ)
  | HResult.fileResponse _ _ _ _ b => some b
  | _ => none

/-- Media type of a file response. -/
def mediaTypeOf : HResult → Option String
  | HResult.fileResponse _ m _ _ _ => some m
  | _ => none

/-- Content-Disposition header of a file response. -/
def dispositionOf : HResult → Option String
  | HResult.fileResponse _ _ _ d _ => some d
  | _ => none

/-- Observable effects the handler performs, in order: FileInfo
extraction, template rendering, byte serving, external tool invocation. -/
inductive Ev
  | readInfo
  | render (template : String)
  | serveFile
  | invokeTool
deriving DecidableEq

/-- Filename after the optional path-mapping translation, the first step
of `handle_file_access`. -/
def translated (res : FileAccessResource) (filename : String) : String :=
  match res.path_mapping with
  | some pm => pm.translate filename
  | none => filename

/-- Body of the `try` block of `handle_file_access`: translate, resolve,
check existence (204 when absent), then dispatch on the action exactly as
the Python `if`/`elif` chain does.  Errors are the exceptions the Python
code raises at the same points. -/
def handle_body (res : FileAccessResource) (env : Env) (filename : String)
    (action : String) (noheader : Bool) : Except PyError HResult × List Ev :=
  let fname := translated res filename
  let file_path := env.fs.resolve fname
  if fsExists env.fs file_path then
    if action = "info" then
      match get_file_info env file_path with
      | Except.error e => (Except.error e, [Ev.readInfo])
      | Except.ok fileinfo =>
        (Except.ok (HResult.htmlResponse
          (render_info res env.fs fileinfo "defaultinfo" noheader)),
          [Ev.readInfo, Ev.render "defaultinfo"])
    else if action = "shortinfo" then
      match get_file_info env file_path with
      | Except.error e => (Except.error e, [Ev.readInfo])
      | Except.ok fileinfo =>
        (Except.ok (HResult.htmlResponse
          (render_info res env.fs fileinfo "shortinfo" noheader)),
          [Ev.readInfo, Ev.render "shortinfo"])
    else if action = "download" then
      if fsIsFile env.fs file_path then
        (Except.ok (HResult.fileResponse file_path
          (match guess_type env.mimeTypes file_path with
           | some m => m
           | none => "application/octet-stream")
          (basename file_path)
          ("attachment; filename=\"" ++ basename file_path ++ "\"")
          (contentOf env.fs file_path)),
          [Ev.serveFile])
      else
        (Except.error (PyError.httpEx 400 "Cannot download directory"), [])
    else if action = "open" then
      match open_file_in_desktop env file_path false with
      | (Except.ok _, _) => (Except.ok (HResult.htmlResponse CLOSE_TAB_HTML), [Ev.invokeTool])
      | (Except.error (PyError.runtimeError m), inv) =>
        (Except.error (PyError.httpEx 500
          ("Server may be running in headless mode or file opening failed: " ++ m)),
          if inv then [Ev.invokeTool] else [])
      | (Except.error e, inv) => (Except.error e, if inv then [Ev.invokeTool] else [])
    else if action = "browse" then
      match open_file_in_desktop env file_path true with
      | (Except.ok _, _) => (Except.ok (HResult.htmlResponse CLOSE_TAB_HTML), [Ev.invokeTool])
      | (Except.error (PyError.runtimeError m), inv) =>
        (Except.error (PyError.httpEx 500
          ("Server may be running in headless mode or directory browsing failed: " ++ m)),
          if inv then [Ev.invokeTool] else [])
      | (Except.error e, inv) => (Except.error e, if inv then [Ev.invokeTool] else [])
    else
      (Except.error (PyError.httpEx 400 ("Invalid action: " ++ action)), [])
  else
    (Except.error (PyError.httpEx 204 "File not found"), [])

/-- Model of `FileAccessResource.handle_file_access`: the `try` body with
the `except` clauses of the source folded in — `FileNotFoundError` maps
to 404 with the exception text, `HTTPException` re-raises unchanged, any
other exception maps to 500 with its text. -/
def handle_file_access (res : FileAccessResource) (env : Env) (filename : String)
    (action : String) (noheader : Bool) : HResult × List Ev :=
  match handle_body res env filename action noheader with
  | (Except.ok r, evs) => (r, evs)
  | (Except.error (PyError.fileNotFound m), evs) => (HResult.httpError 404 m, evs)
  | (Except.error (PyError.httpEx s d), evs) => (HResult.httpError s d, evs)
  | (Except.error (PyError.runtimeError m), evs) => (HResult.httpError 500 m, evs)

/-! ## Helper lemmas -/

theorem str_data_append (a b : String) : (a ++ b).data = a.data ++ b.data := by
  cases a
  cases b
  rfl

theorem str_ext (a b : String) (h : a.data = b.data) : a = b := by
  cases a
  cases b
  exact congrArg String.mk h

theorem str_append_assoc (a b c : String) : a ++ b ++ c = a ++ (b ++ c) := by
  apply str_ext
  simp only [str_data_append, List.append_assoc]

theorem pad2_length : ∀ m : ℕ, m < 100 → (pad2 m).length = 2 := by decide

theorem roundHalfEven_natCast (n : ℕ) : roundHalfEven ((n : ℚ)) = (n : ℤ) := by
  unfold roundHalfEven
  have h1 : Int.floor ((n : ℚ)) = (n : ℤ) := Int.floor_natCast n
  rw [h1]
  have h2 : ((n : ℚ)) - ((n : ℤ) : ℚ) = 0 := by push_cast; ring
  rw [h2]
  norm_num

theorem fmt2_natCast (n : ℕ) : fmt2 ((n : ℚ)) = toString n ++ ".00" := by
  unfold fmt2
  have h1 : ((n : ℚ)) * 100 = ((n * 100 : ℕ) : ℚ) := by push_cast; ring
  rw [h1, roundHalfEven_natCast]
  have h2 : ((n * 100 : ℕ) : ℤ).toNat = n * 100 := Int.toNat_natCast _
  rw [h2]
  have h3 : n * 100 / 100 = n := by omega
  have h4 : n * 100 % 100 = 0 := by omega
  rw [h3, h4]
  rw [str_append_assoc]
  have h5 : "." ++ pad2 0 = ".00" := by decide
  rw [h5]

theorem format_size_eq (s : ℕ) :
    _format_size s =
      fmt2 ((s : ℚ) / 1024 ^ sizeRank s) ++ " " ++ sizeUnits.getD (sizeRank s) "PB" := by
  have e2 : (s : ℚ) / 1024 / 1024 = (s : ℚ) / 1048576 := by
    rw [div_div]; norm_num
  have e3 : (s : ℚ) / 1024 / 1024 / 1024 = (s : ℚ) / 1073741824 := by
    rw [div_div, div_div]; norm_num
  have e4 : (s : ℚ) / 1024 / 1024 / 1024 / 1024 = (s : ℚ) / 1099511627776 := by
    rw [div_div, div_div, div_div]; norm_num
  have e5 : (s : ℚ) / 1024 / 1024 / 1024 / 1024 / 1024 = (s : ℚ) / 1125899906842624 := by
    rw [div_div, div_div, div_div, div_div]; norm_num
  unfold _format_size
  by_cases h0 : s < 1024
  · have hq0 : ((s : ℚ)) < 1024 := by exact_mod_cast h0
    have hr : sizeRank s = 0 := by unfold sizeRank; simp [h0]
    rw [hr]
    simp only [_format_size_loop, if_pos hq0]
    norm_num
    rfl
  · have hq0 : ¬ ((s : ℚ)) < 1024 := by exact_mod_cast h0
    by_cases h1 : s < 1048576
    · have hq1 : (s : ℚ) / 1024 < 1024 := by
        rw [div_lt_iff₀ (by norm_num : (0:ℚ) < 1024)]
        norm_num
        exact_mod_cast h1
      have hr : sizeRank s = 1 := by unfold sizeRank; simp [h0, h1]
      rw [hr]
      simp only [_format_size_loop, if_neg hq0, if_pos hq1]
      norm_num
      rfl
    · have hq1 : ¬ (s : ℚ) / 1024 < 1024 := by
        rw [div_lt_iff₀ (by norm_num : (0:ℚ) < 1024)]
        norm_num
        exact_mod_cast Nat.le_of_not_lt h1
      by_cases h2 : s < 1073741824
      · have hq2 : (s : ℚ) / 1024 / 1024 < 1024 := by
          rw [e2, div_lt_iff₀ (by norm_num : (0:ℚ) < 1048576)]
          norm_num
          exact_mod_cast h2
        have hr : sizeRank s = 2 := by unfold sizeRank; simp [h0, h1, h2]
        rw [hr]
        simp only [_format_size_loop, if_neg hq0, if_neg hq1, if_pos hq2]
        rw [e2, show ((1024:ℚ))^2 = 1048576 by norm_num]
        rfl
      · have hq2 : ¬ (s : ℚ) / 1024 / 1024 < 1024 := by
          rw [e2, div_lt_iff₀ (by norm_num : (0:ℚ) < 1048576)]
          norm_num
          exact_mod_cast Nat.le_of_not_lt h2
        by_cases h3 : s < 1099511627776
        · have hq3 : (s : ℚ) / 1024 / 1024 / 1024 < 1024 := by
            rw [e3, div_lt_iff₀ (by norm_num : (0:ℚ) < 1073741824)]
            norm_num
            exact_mod_cast h3
          have hr : sizeRank s = 3 := by unfold sizeRank; simp [h0, h1, h2, h3]
          rw [hr]
          simp only [_format_size_loop, if_neg hq0, if_neg hq1, if_neg hq2, if_pos hq3]
          rw [e3, show ((1024:ℚ))^3 = 1073741824 by norm_num]
          rfl
        · have hq3 : ¬ (s : ℚ) / 1024 / 1024 / 1024 < 1024 := by
            rw [e3, div_lt_iff₀ (by norm_num : (0:ℚ) < 1073741824)]
            norm_num
            exact_mod_cast Nat.le_of_not_lt h3
          by_cases h4 : s < 1125899906842624
          · have hq4 : (s : ℚ) / 1024 / 1024 / 1024 / 1024 < 1024 := by
              rw [e4, div_lt_iff₀ (by norm_num : (0:ℚ) < 1099511627776)]
              norm_num
              exact_mod_cast h4
            have hr : sizeRank s = 4 := by unfold sizeRank; simp [h0, h1, h2, h3, h4]
            rw [hr]
            simp only [_format_size_loop, if_neg hq0, if_neg hq1, if_neg hq2, if_neg hq3,
              if_pos hq4]
            rw [e4, show ((1024:ℚ))^4 = 1099511627776 by norm_num]
            rfl
          · have hq4 : ¬ (s : ℚ) / 1024 / 1024 / 1024 / 1024 < 1024 := by
              rw [e4, div_lt_iff₀ (by norm_num : (0:ℚ) < 1099511627776)]
              norm_num
              exact_mod_cast Nat.le_of_not_lt h4
            have hr : sizeRank s = 5 := by unfold sizeRank; simp [h0, h1, h2, h3, h4]
            rw [hr]
            simp only [_format_size_loop, if_neg hq0, if_neg hq1, if_neg hq2, if_neg hq3,
              if_neg hq4]
            rw [e5, show ((1024:ℚ))^5 = 1125899906842624 by norm_num]
            rw [str_append_assoc]
            congr 1

theorem format_size_zero : _format_size 0 = "0.00 B" := by
  rw [format_size_eq]
  have hr : sizeRank 0 = 0 := by decide
  rw [hr]
  rw [show ((1024:ℚ))^0 = 1 by norm_num, div_one, fmt2_natCast]
  decide

theorem format_size_kb : _format_size 1024 = "1.00 KB" := by
  rw [format_size_eq]
  have hr : sizeRank 1024 = 1 := by decide
  rw [hr]
  rw [show ((1024:ℚ))^1 = 1024 by norm_num]
  rw [show (((1024:ℕ)) : ℚ) / 1024 = ((1 : ℕ) : ℚ) by push_cast; norm_num]
  rw [fmt2_natCast]
  decide

theorem format_size_mb : _format_size (1024 * 1024) = "1.00 MB" := by
  rw [format_size_eq]
  have hr : sizeRank (1024 * 1024) = 2 := by decide
  rw [hr]
  rw [show ((1024:ℚ))^2 = 1048576 by norm_num]
  rw [show (((1024 * 1024 : ℕ)) : ℚ) / 1048576 = ((1 : ℕ) : ℚ) by push_cast; norm_num]
  rw [fmt2_natCast]
  decide

theorem sizeRank_le_five (s : ℕ) : sizeRank s ≤ 5 := by
  unfold sizeRank
  split_ifs <;> omega

theorem sizeRank_char (s k : ℕ) (hk : k < 5) :
    sizeRank s ≤ k ↔ s < 1024 ^ (k + 1) := by
  interval_cases k <;> (unfold sizeRank; split_ifs <;> norm_num <;> omega)

theorem sizeRank_mono (s t : ℕ) (h : s ≤ t) : sizeRank s ≤ sizeRank t := by
  unfold sizeRank
  split_ifs <;> omega

/-- C1: `_format_size` walks the units B, KB, MB, GB, TB, PB dividing by
1024, stopping at the first unit whose remaining value is below 1024 (the
rank is the least `k < 5` with `s < 1024 ^ (k + 1)`, capped at PB);
it renders the value with exactly two decimal digits, a space and the
unit; `_format_size 0 = "0.00 B"`, `_format_size 1024 = "1.00 KB"`,
`_format_size (1024 * 1024) = "1.00 MB"`; and the chosen unit rank is
monotonically non-decreasing in the byte count. -/
theorem c1_format_size_spec :
    _format_size 0 = "0.00 B" ∧
    _format_size 1024 = "1.00 KB" ∧
    _format_size (1024 * 1024) = "1.00 MB" ∧
    (∀ s : ℕ,
      _format_size s =
        fmt2 ((s : ℚ) / 1024 ^ sizeRank s) ++ " " ++ sizeUnits.getD (sizeRank s) "PB") ∧
    (∀ s : ℕ, sizeRank s ≤ 5) ∧
    (∀ s k : ℕ, k < 5 → (sizeRank s ≤ k ↔ s < 1024 ^ (k + 1))) ∧
    (∀ s t : ℕ, s ≤ t → sizeRank s ≤ sizeRank t) ∧
    (∀ s : ℕ, ∃ n : ℕ,
      _format_size s =
        toString (n / 100) ++ "." ++ pad2 (n % 100) ++ " " ++
          sizeUnits.getD (sizeRank s) "PB" ∧
      (pad2 (n % 100)).length = 2) := by
  refine ⟨format_size_zero, format_size_kb, format_size_mb, format_size_eq,
    sizeRank_le_five, sizeRank_char, sizeRank_mono, ?_⟩
  intro s
  refine ⟨(roundHalfEven ((s : ℚ) / 1024 ^ sizeRank s * 100)).toNat, ?_, ?_⟩
  · rw [format_size_eq]
    rfl
  · exact pad2_length _ (Nat.mod_lt _ (by norm_num))

/-- Witness: C1 instantiated at concrete inputs, discharging the bounded
hypotheses of the rank characterization and of monotonicity. -/
theorem c1_format_size_spec_witness :
    ((3 : ℕ) ≤ 5000 ∧ sizeRank 3 ≤ sizeRank 5000) ∧
    ((0 : ℕ) < 5 ∧ (sizeRank 2048 ≤ 0 ↔ 2048 < 1024 ^ (0 + 1))) :=
  ⟨⟨by decide, c1_format_size_spec.2.2.2.2.2.2.1 3 5000 (by decide)⟩,
    ⟨by decide, c1_format_size_spec.2.2.2.2.2.1 2048 0 (by decide)⟩⟩

/-! ## Handler lemmas -/

theorem handle_body_nonexistent (res : FileAccessResource) (env : Env)
    (filename action : String) (noheader : Bool)
    (h : env.fs.lookup (env.fs.resolve (translated res filename)) = none) :
    handle_file_access res env filename action noheader =
      (HResult.httpError 204 "File not found", []) := by
  have hex : fsExists env.fs (env.fs.resolve (translated res filename)) = false := by
    unfold fsExists
    rw [h]
    rfl
  unfold handle_file_access handle_body
  simp [hex]

theorem handle_download_not_regular (res : FileAccessResource) (env : Env)
    (filename : String) (noheader : Bool) (e : Entry)
    (h : env.fs.lookup (env.fs.resolve (translated res filename)) = some e)
    (hk : e.kind ≠ EntryKind.regular) :
    handle_file_access res env filename "download" noheader =
      (HResult.httpError 400 "Cannot download directory", []) := by
  have hex : fsExists env.fs (env.fs.resolve (translated res filename)) = true := by
    unfold fsExists
    rw [h]
    rfl
  have hnf : fsIsFile env.fs (env.fs.resolve (translated res filename)) = false := by
    unfold fsIsFile
    rw [h]
    simp [hk]
  unfold handle_file_access handle_body
  simp [hex, hnf]

theorem handle_download_regular (res : FileAccessResource) (env : Env)
    (filename : String) (noheader : Bool) (p : String) (e : Entry)
    (hp : env.fs.resolve (translated res filename) = p)
    (h : env.fs.lookup p = some e)
    (hk : e.kind = EntryKind.regular) :
    handle_file_access res env filename "download" noheader =
      (HResult.fileResponse p
        (match guess_type env.mimeTypes p with
         | some m => m
         | none => "application/octet-stream")
        (basename p)
        ("attachment; filename=\"" ++ basename p ++ "\"")
        e.content, [Ev.serveFile]) := by
  subst hp
  have hex : fsExists env.fs (env.fs.resolve (translated res filename)) = true := by
    unfold fsExists
    rw [h]
    rfl
  have hif : fsIsFile env.fs (env.fs.resolve (translated res filename)) = true := by
    unfold fsIsFile
    rw [h]
    simp [hk]
  have hco : contentOf env.fs (env.fs.resolve (translated res filename)) = e.content := by
    unfold contentOf
    rw [h]
  unfold handle_file_access handle_body
  simp [hex, hif, hco]

/-! ## Concrete environments used by the witnesses and counterexamples -/

/-- Filesystem with a single entry at a fixed resolved path; resolution is
the identity (inputs are already canonical). -/
def singleFS (p : String) (e : Entry) : FS :=
  { resolve := fun q => q, lookup := fun q => if q = p then some e else none }

/-- Empty filesystem. -/
def fs0 : FS := { resolve := fun q => q, lookup := fun _ => none }

/-- Resource with the base URL the tests of the repository use and no path
mapping. -/
def res0 : FileAccessResource := FileAccessResource.ofBase "http://localhost:9998/" none

/-- Environment over the empty filesystem. -/
def env0 : Env :=
  { fs := fs0, system := "Linux", run := fun _ => SubprocessOutcome.success,
    mimeTypes := fun _ => none, formatTime := fun _ => "" }

/-- Regular-file entry with given content and size. -/
def fileEntry (content : List ℕ) (sz : ℕ) : Entry :=
  { kind := EntryKind.regular, stat := { st_size := sz, st_mtime := 0 },
    content := content }

/-- Directory entry with the 4096-byte size a typical Linux filesystem
reports for a directory inode. -/
def dirEntry : Entry :=
  { kind := EntryKind.directory, stat := { st_size := 4096, st_mtime := 0 },
    content := [] }

/-- FIFO entry: exists, neither a regular file nor a directory. -/
def fifoEntry : Entry :=
  { kind := EntryKind.special, stat := { st_size := 0, st_mtime := 0 }, content := [] }

/-- Empty regular file. -/
def emptyEntry : Entry := fileEntry [] 0

/-- Environment with one directory at `/tmp/subdir`. -/
def env3 : Env :=
  { fs := singleFS "/tmp/subdir" dirEntry, system := "Linux",
    run := fun _ => SubprocessOutcome.success,
    mimeTypes := fun _ => none, formatTime := fun _ => "" }

/-- Environment with one empty regular file at `/tmp/empty.txt` and an
empty mimetypes table. -/
def env4 : Env :=
  { fs := singleFS "/tmp/empty.txt" emptyEntry, system := "Linux",
    run := fun _ => SubprocessOutcome.success,
    mimeTypes := fun _ => none, formatTime := fun _ => "" }

/-- Environment with one directory at `/data` whose stat reports 4096
bytes. -/
def env5 : Env :=
  { fs := singleFS "/data" dirEntry, system := "Linux",
    run := fun _ => SubprocessOutcome.success,
    mimeTypes := fun _ => none, formatTime := fun _ => "" }

/-- Environment with one FIFO at `/dev/myfifo`. -/
def env9 : Env :=
  { fs := singleFS "/dev/myfifo" fifoEntry, system := "Linux",
    run := fun _ => SubprocessOutcome.success,
    mimeTypes := fun _ => none, formatTime := fun _ => "" }

/-- Environment of a Linux host without a desktop opener: the file exists
but `xdg-open` cannot be launched, so `subprocess.run` raises
`FileNotFoundError`. -/
def env6a : Env :=
  { fs := singleFS "/tmp/test.txt" (fileEntry [104, 105] 2), system := "Linux",
    run := fun _ =>
      SubprocessOutcome.launchFailure "[Errno 2] No such file or directory: xdg-open",
    mimeTypes := fun _ => none, formatTime := fun _ => "" }

/-- Environment of a Linux host where `xdg-open` launches but exits
nonzero. -/
def env6b : Env :=
  { fs := singleFS "/tmp/test.txt" (fileEntry [104, 105] 2), system := "Linux",
    run := fun _ =>
      SubprocessOutcome.nonzeroExit 1 "Command xdg-open returned non-zero exit status 1.",
    mimeTypes := fun _ => none, formatTime := fun _ => "" }

/-! ## Claims C2, C3, C9, C4, C5, C6 -/

/-- C2: when the translated, resolved path does not exist, the handler
with action info or shortinfo answers HTTP 204 and performs no FileInfo
extraction and no rendering (the effect list is empty). -/
theorem c2_nonexistent_204 (res : FileAccessResource) (env : Env)
    (filename action : String) (noheader : Bool)
    (h : env.fs.lookup (env.fs.resolve (translated res filename)) = none)
    (_ha : action = "info" ∨ action = "shortinfo") :
    handle_file_access res env filename action noheader =
      (HResult.httpError 204 "File not found", []) :=
  handle_body_nonexistent res env filename action noheader h

/-- Witness: C2 at a concrete nonexistent path over the empty
filesystem. -/
theorem c2_nonexistent_204_witness :
    env0.fs.lookup (env0.fs.resolve (translated res0 "/nonexistent/file.txt")) = none ∧
    handle_file_access res0 env0 "/nonexistent/file.txt" "info" true =
      (HResult.httpError 204 "File not found", []) :=
  ⟨rfl, c2_nonexistent_204 res0 env0 "/nonexistent/file.txt" "info" true rfl (Or.inl rfl)⟩


/-- C3: download of an existing directory answers HTTP 400 with detail
"Cannot download directory", whatever the directory contains (the
filesystem and the entry are arbitrary). -/
theorem c3_download_directory_400 (res : FileAccessResource) (env : Env)
    (filename : String) (noheader : Bool) (e : Entry)
    (h : env.fs.lookup (env.fs.resolve (translated res filename)) = some e)
    (hd : e.kind = EntryKind.directory) :
    handle_file_access res env filename "download" noheader =
      (HResult.httpError 400 "Cannot download directory", []) :=
  handle_download_not_regular res env filename noheader e h (by simp [hd])

/-- Witness: C3 at a concrete directory. -/
theorem c3_download_directory_400_witness :
    env3.fs.lookup (env3.fs.resolve (translated res0 "/tmp/subdir")) = some dirEntry ∧
    dirEntry.kind = EntryKind.directory ∧
    handle_file_access res0 env3 "/tmp/subdir" "download" true =
      (HResult.httpError 400 "Cannot download directory", []) :=
  ⟨rfl, rfl, c3_download_directory_400 res0 env3 "/tmp/subdir" true dirEntry rfl rfl⟩

/-- C9: download of any existing entry that is not a regular file — a
directory, but equally a FIFO or device node — answers HTTP 400 with the
same "Cannot download directory" detail, because the guard only tests
`is_file()`. -/
theorem c9_download_not_file_400 (res : FileAccessResource) (env : Env)
    (filename : String) (noheader : Bool) (e : Entry)
    (h : env.fs.lookup (env.fs.resolve (translated res filename)) = some e)
    (hk : e.kind ≠ EntryKind.regular) :
    handle_file_access res env filename "download" noheader =
      (HResult.httpError 400 "Cannot download directory", []) :=
  handle_download_not_regular res env filename noheader e h hk

/-- Witness: C9 at a FIFO, an existing entry that is neither a regular
file nor a directory. -/
theorem c9_download_not_file_400_witness :
    env9.fs.lookup (env9.fs.resolve (translated res0 "/dev/myfifo")) = some fifoEntry ∧
    fifoEntry.kind ≠ EntryKind.regular ∧
    handle_file_access res0 env9 "/dev/myfifo" "download" true =
      (HResult.httpError 400 "Cannot download directory", []) :=
  ⟨rfl, by decide, c9_download_not_file_400 res0 env9 "/dev/myfifo" true fifoEntry rfl
    (by decide)⟩

/-- C4: download of an existing regular file answers 200 with a file
response whose streamed bytes are exactly the stored content (empty for
an empty file), whose Content-Disposition is
`attachment; filename="<basename>"`, and whose media type is the
mimetypes guess for the extension with fallback
application/octet-stream. -/
theorem c4_download_file (res : FileAccessResource) (env : Env)
    (filename : String) (noheader : Bool) (p : String) (e : Entry)
    (hp : env.fs.resolve (translated res filename) = p)
    (h : env.fs.lookup p = some e)
    (hk : e.kind = EntryKind.regular) :
    handle_file_access res env filename "download" noheader =
      (HResult.fileResponse p
        (match guess_type env.mimeTypes p with
         | some m => m
         | none => "application/octet-stream")
        (basename p)
        ("attachment; filename=\"" ++ basename p ++ "\"")
        e.content, [Ev.serveFile]) ∧
    statusOf (handle_file_access res env filename "download" noheader).1 = 200 ∧
    servedBody (handle_file_access res env filename "download" noheader).1 =
      some e.content ∧
    (guess_type env.mimeTypes p = none →
      mediaTypeOf (handle_file_access res env filename "download" noheader).1 =
        some "application/octet-stream") := by
  have hmain := handle_download_regular res env filename noheader p e hp h hk
  refine ⟨hmain, ?_, ?_, ?_⟩
  · rw [hmain]
    rfl
  · rw [hmain]
    rfl
  · intro hg
    rw [hmain]
    unfold mediaTypeOf
    rw [hg]

/-- Witness: C4 at a concrete empty regular file with an empty mimetypes
table, exercising both the empty-body case and the octet-stream
fallback. -/
theorem c4_download_file_witness :
    env4.fs.resolve (translated res0 "/tmp/empty.txt") = "/tmp/empty.txt" ∧
    env4.fs.lookup "/tmp/empty.txt" = some emptyEntry ∧
    emptyEntry.kind = EntryKind.regular ∧
    handle_file_access res0 env4 "/tmp/empty.txt" "download" true =
      (HResult.fileResponse "/tmp/empty.txt" "application/octet-stream" "empty.txt"
        "attachment; filename=\"empty.txt\"" [], [Ev.serveFile]) := by
  refine ⟨rfl, rfl, rfl, ?_⟩
  have h := (c4_download_file res0 env4 "/tmp/empty.txt" true "/tmp/empty.txt"
    emptyEntry rfl rfl rfl).1
  rw [h]
  rfl

/-- Counterexample to C5 as stated: over a filesystem whose directory
inode reports 4096 bytes — the usual report of a Linux filesystem —
`get_file_info` answers size 4096, not 0, because the code copies
`st_size` verbatim without special-casing directories. -/
theorem c5_directory_size_counterexample :
    fsIsDir env5.fs "/data" = true ∧
    (get_file_info env5 "/data").toOption.map (fun fi => fi.size) = some 4096 ∧
    (4096 : ℕ) ≠ 0 := by
  refine ⟨rfl, rfl, by decide⟩

/-- C5 amended: for an existing directory, the size field of the FileInfo
record equals the `st_size` the filesystem stat reports for the
directory, whatever that is (not specially 0). -/
theorem c5_directory_size_is_st_size (env : Env) (filepath : String) (e : Entry)
    (h : env.fs.lookup (env.fs.resolve filepath) = some e)
    (_hd : e.kind = EntryKind.directory) :
    (get_file_info env filepath).toOption.map (fun fi => fi.size) =
      some e.stat.st_size := by
  unfold get_file_info
  rw [h]
  rfl

/-- Witness: the amended C5 at the concrete 4096-byte directory. -/
theorem c5_directory_size_is_st_size_witness :
    env5.fs.lookup (env5.fs.resolve "/data") = some dirEntry ∧
    dirEntry.kind = EntryKind.directory ∧
    (get_file_info env5 "/data").toOption.map (fun fi => fi.size) =
      some dirEntry.stat.st_size :=
  ⟨rfl, rfl, c5_directory_size_is_st_size env5 "/data" dirEntry rfl rfl⟩

/-- C6: behaviour of the handler when the desktop-open subprocess fails
on an existing file.  A nonzero exit is mapped to HTTP 500 with the
headless-environment hint, as the spec says; but a launch failure (the
desktop opener is not installed — the typical headless host) raises
`FileNotFoundError` inside `subprocess.run`, which the outer
`except FileNotFoundError` clause of `handle_file_access` maps to HTTP
404 with the raw OS message, contradicting both the spec and the
docstring of `open_file_in_desktop` ("Raises RuntimeError: If operation
fails"). -/
theorem c6_external_failure_status :
    fsExists env6a.fs "/tmp/test.txt" = true ∧
    handle_file_access res0 env6a "/tmp/test.txt" "open" true =
      (HResult.httpError 404 "[Errno 2] No such file or directory: xdg-open",
        [Ev.invokeTool]) ∧
    handle_file_access res0 env6b "/tmp/test.txt" "open" true =
      (HResult.httpError 500
        "Server may be running in headless mode or file opening failed: Failed to open file: Command xdg-open returned non-zero exit status 1.",
        [Ev.invokeTool]) := by
  refine ⟨rfl, ?_, ?_⟩ <;> rfl


/-! ## Claims C7, C8, C10 -/

theorem qp_filename_lit : quote_plus "filename" = "filename" := by decide

theorem qp_action_lit : quote_plus "action" = "action" := by decide

theorem get_action_link_split (res : FileAccessResource) (f a : String) :
    get_action_link res f a =
      res.base_url ++
        ("file?filename=" ++ (quote_plus f ++ ("&action=" ++ quote_plus a))) := by
  have h0 : urlencodePairs [("filename", f), ("action", a)] =
      quote_plus "filename" ++ "=" ++ quote_plus f ++ "&" ++
        (quote_plus "action" ++ "=" ++ quote_plus a) := rfl
  unfold get_action_link
  rw [h0, qp_filename_lit, qp_action_lit]
  apply str_ext
  simp only [str_data_append, List.append_assoc]
  simp only [List.cons_append, List.nil_append, List.append_assoc]

/-- C7: `get_action_link` produces the URL
`{base_url}file?filename=<enc>&action=<enc>` where both query values are
percent-encoded by the urlencode quoting, and the result always starts
with the configured (normalized) base URL. -/
theorem c7_get_action_link (b : String) (pm : Option PathMapping) (f a : String) :
    get_action_link (FileAccessResource.ofBase b pm) f a =
      (FileAccessResource.ofBase b pm).base_url ++
        ("file?filename=" ++ (quote_plus f ++ ("&action=" ++ quote_plus a))) ∧
    (∃ rest : String,
      get_action_link (FileAccessResource.ofBase b pm) f a =
        (FileAccessResource.ofBase b pm).base_url ++ rest) :=
  ⟨get_action_link_split _ f a,
    ⟨"file?filename=" ++ (quote_plus f ++ ("&action=" ++ quote_plus a)),
      get_action_link_split _ f a⟩⟩

/-- Empty filesystem used by the pure icon-name evaluations (no path is a
directory there). -/
def fsNone : FS := { resolve := fun q => q, lookup := fun _ => none }

/-- C8: `get_icon_name` is a pure, total function of the path class: every
directory maps to `folder32x32.png`; a non-directory with a nonempty
lower-cased extension `e` maps to `e ++ "32x32.png"` (so `x.PDF` and
`x.pdf` both yield `pdf32x32.png`); a non-directory without extension
maps to `file32x32.png`; and equal path classes always yield equal icon
names. -/
theorem c8_get_icon_name :
    (∀ (fs : FS) (p : String), fsIsDir fs p = true →
      get_icon_name fs p = "folder32x32.png") ∧
    (∀ (fs : FS) (p : String), fsIsDir fs p = false → pyExtOf p ≠ "" →
      get_icon_name fs p = pyExtOf p ++ "32x32.png") ∧
    (∀ (fs : FS) (p : String), fsIsDir fs p = false → pyExtOf p = "" →
      get_icon_name fs p = "file32x32.png") ∧
    (∀ (fs fs2 : FS) (p q : String), fsIsDir fs p = fsIsDir fs2 q →
      pyExtOf p = pyExtOf q → get_icon_name fs p = get_icon_name fs2 q) ∧
    get_icon_name fsNone "/x.PDF" = "pdf32x32.png" ∧
    get_icon_name fsNone "/x.pdf" = "pdf32x32.png" := by
  refine ⟨?_, ?_, ?_, ?_, by decide, by decide⟩
  · intro fs p h
    unfold get_icon_name
    simp [h]
  · intro fs p h hne
    unfold get_icon_name
    simp [h, hne]
  · intro fs p h he
    unfold get_icon_name
    simp [h, he]
  · intro fs fs2 p q h1 h2
    unfold get_icon_name
    rw [h1, h2]

/-- Witness: C8 purity applied to two files of the same path class
(non-directories whose extensions agree after lower-casing). -/
theorem c8_get_icon_name_witness :
    fsIsDir fsNone "/a.TXT" = fsIsDir fsNone "/b/c.txt" ∧
    pyExtOf "/a.TXT" = pyExtOf "/b/c.txt" ∧
    get_icon_name fsNone "/a.TXT" = get_icon_name fsNone "/b/c.txt" :=
  ⟨rfl, by decide, c8_get_icon_name.2.2.2.1 fsNone fsNone "/a.TXT" "/b/c.txt" rfl
    (by decide)⟩

theorem head?_dropWhile_slash_ne (l : List Char) :
    (l.dropWhile (fun c => c = '/')).head? ≠ some '/' := by
  induction l with
  | nil => simp
  | cons c cs ih =>
    by_cases h : c = '/'
    · simpa [List.dropWhile, h] using ih
    · simp [List.dropWhile, h]

/-- C10: after construction, the stored base URL always ends with exactly
one slash (its characters are some list not ending in a slash, followed
by one slash), and every generated action link extends that stored value
on the right; the record is never rebuilt, so the value is fixed for the
lifetime of the resource. -/
theorem c10_base_url_normalized (b : String) (pm : Option PathMapping) :
    (∃ cs : List Char,
      (FileAccessResource.ofBase b pm).base_url.data = cs ++ [ '/' ] ∧
      cs.getLast? ≠ some '/') ∧
    (∀ f a : String, ∃ rest : String,
      get_action_link (FileAccessResource.ofBase b pm) f a =
        (FileAccessResource.ofBase b pm).base_url ++ rest) := by
  constructor
  · refine ⟨(b.data.reverse.dropWhile (fun c => c = '/')).reverse, ?_, ?_⟩
    · show (rstripSlash b ++ "/").data = _
      rw [str_data_append]
      rfl
    · rw [List.getLast?_reverse]
      exact head?_dropWhile_slash_ne _
  · intro f a
    exact ⟨"file?filename=" ++ (quote_plus f ++ ("&action=" ++ quote_plus a)),
      get_action_link_split _ f a⟩


/-- Witness: C7 fully evaluated at the inputs the repository tests use:
the slash characters of the filename are percent-encoded and the link
extends the normalized base URL. -/
theorem c7_get_action_link_witness :
    get_action_link (FileAccessResource.ofBase "http://localhost:9998" none)
        "/path/to/file.txt" "info" =
      "http://localhost:9998/file?filename=%2Fpath%2Fto%2Ffile.txt&action=info" := by
  have h := (c7_get_action_link "http://localhost:9998" none "/path/to/file.txt"
    "info").1
  rw [h]
  decide

/-- Witness: C10 evaluated at a base URL carrying three trailing slashes;
the stored value ends in exactly one. -/
theorem c10_base_url_normalized_witness :
    ∃ cs : List Char,
      (FileAccessResource.ofBase "http://example.com:8080///" none).base_url.data =
        cs ++ [ '/' ] ∧
      cs.getLast? ≠ some '/' :=
  (c10_base_url_normalized "http://example.com:8080///" none).1

end PyClientUtils
